import Mathlib

/-!
Verification development for the Anko database-connector core
(`src-tauri/src/db/{mysql.rs, postgres.rs, query_utils.rs}`).

The connector code is shallowly embedded: the sqlx driver calls
(`fetch_all`, `execute`, the decode calls `try_get::<T>`) are modelled as
oracles carried by pool/row structures, machine values decoded by the
driver are modelled by the textual or numeric payload the Rust code
actually extracts from them, and the pure helpers
(`extract_table_from_select`, the identifier-quoting builders, the
JSON type-coercion dispatch) are translated function-for-function.
Strings in the embedding are treated at `Char` granularity, which agrees
with Rust byte indices on the ASCII inputs exercised here.
-/

/-- JSON value carrier, mirroring `serde_json::Value`.  Numbers are modelled
as rationals: `serde_json::Number::from(i64/u64)` always succeeds, and
`Number::from_f64` is modelled separately (see `RawValue.asF64`). -/
inductive Json where
  | null : Json
  | bool (b : Bool) : Json
  | num (q : Rat) : Json
  | str (s : String) : Json
  | arr (elems : List Json) : Json
  | obj (fields : List (String × Json)) : Json

/-- Rendering of a decoded `DateTime<Utc>` value: the code prints it either
via `to_rfc3339` (PostgreSQL `TIMESTAMPTZ`) or via the
`%Y-%m-%d %H:%M:%S` format string (MySQL `TIMESTAMP`). -/
structure UtcVal where
  rfc3339 : String
  ymdHms : String

/-- Outcome of every `row.try_get::<T>(i)` decode the coercion code performs
on one column value.  A field is `none` exactly when the corresponding
`try_get` returns `Err`; chrono/BigDecimal/Uuid values are recorded by the
text the Rust code formats them to, `f64` decodes record the result of
`serde_json::Number::from_f64` (inner `none` = non-finite value). -/
structure RawValue where
  asString : Option String := none
  asI64 : Option Int := none
  asI32 : Option Int := none
  asI16 : Option Int := none
  asU64 : Option Nat := none
  asF64 : Option (Option Rat) := none
  asF32 : Option (Option Rat) := none
  asBool : Option Bool := none
  asDecimal : Option String := none
  asDate : Option String := none
  asNaiveDateTime : Option String := none
  asOptNaiveDateTime : Option (Option String) := none
  asUtc : Option UtcVal := none
  asOptUtc : Option (Option UtcVal) := none
  asTime : Option String := none
  asUuid : Option String := none
  asJson : Option Json := none
  asBytes : Option (List Nat) := none

/-- Column value on which every driver decode fails. -/
def rawNone : RawValue := {}

/-! ### Character-level string helpers (Rust `str` methods) -/

/-- Backtick character, used by the MySQL identifier quoting. -/
def btChar : Char := Char.ofNat 96

/-- Double-quote character, used by the PostgreSQL identifier quoting. -/
def dqChar : Char := Char.ofNat 34

/-- Single-quote character (stripped by `trim_matches` in the extractor). -/
def sqChar : Char := Char.ofNat 39

/-- First index at which `needle` occurs in `hay` (Rust `str::find`). -/
def findSub (needle : List Char) : List Char → Option Nat
  | [] => if needle.isPrefixOf ([] : List Char) then some 0 else none
  | c :: t =>
    if needle.isPrefixOf (c :: t) then some 0
    else (findSub needle t).map (· + 1)

/-- Rust `str::trim_start`. -/
def trimStartL (l : List Char) : List Char := l.dropWhile Char.isWhitespace

/-- Rust `str::trim` (both ends). -/
def trimBothL (l : List Char) : List Char :=
  ((l.dropWhile Char.isWhitespace).reverse.dropWhile Char.isWhitespace).reverse

/-- Rust `str::trim_matches(c)`: strip every leading and trailing `c`. -/
def trimMatchesC (c : Char) (l : List Char) : List Char :=
  ((l.dropWhile (· = c)).reverse.dropWhile (· = c)).reverse

/-- Rust `str::split(sep)` as a list of pieces (never empty). -/
def splitOnChar (sep : Char) : List Char → List (List Char)
  | [] => [[]]
  | c :: t =>
    if c = sep then [] :: splitOnChar sep t
    else
      match splitOnChar sep t with
      | [] => [[c]]
      | h :: r => (c :: h) :: r

/-- Rust `str::to_uppercase` at `Char` granularity (agrees on ASCII). -/
def rustToUppercase (s : String) : String := String.mk (s.data.map Char.toUpper)

/-- Rust `str::trim` on a `String`. -/
def rustTrim (s : String) : String := String.mk (trimBothL s.data)

/-- Rust `str::starts_with`. -/
def rustStartsWith (s pre : String) : Bool := pre.data.isPrefixOf s.data

/-! ### `extract_table_from_select` (query_utils.rs lines 20-59) -/

/-- Keywords that terminate the table-name portion after `FROM`. -/
def endKeywords : List (List Char) :=
  [" WHERE ".data, " ORDER ".data, " LIMIT ".data, " GROUP ".data,
   " HAVING ".data, " JOIN ".data, " LEFT ".data, " RIGHT ".data,
   " INNER ".data, " OUTER ".data, ";".data]

/-- Embedding of `extract_table_from_select` from `query_utils.rs`: find
` FROM `, cut the table part at the first end keyword, strip an optional
schema qualifier, strip quoting characters, reject the empty result. -/
def extract_table_from_select (query : String) : Option String :=
  let qd := query.data
  let upper := qd.map Char.toUpper
  match findSub (" FROM ".data) upper with
  | none => none
  | some fromPos =>
    let afterFrom := trimStartL (qd.drop (fromPos + 6))
    let upperAfter := afterFrom.map Char.toUpper
    let endPos := ((endKeywords.filterMap (fun kw => findSub kw upperAfter)).min?).getD afterFrom.length
    let tablePart := trimBothL (afterFrom.take endPos)
    let tableName? :=
      if tablePart.contains '.' then (splitOnChar '.' tablePart).getLast?
      else some tablePart
    match tableName? with
    | none => none
    | some tn =>
      let cleaned := trimMatchesC sqChar (trimMatchesC dqChar (trimMatchesC btChar tn))
      if cleaned = [] then none else some (String.mk cleaned)

/-! ### Context-switch statement builders -/

/-- MySQL context switch (mysql.rs line 128): `format!("USE \x60{}\x60", db)`.
Note the database name is interpolated verbatim, with no escaping. -/
def mysqlUseStmt (db : String) : String :=
  "USE `" ++ db ++ "`"

/-- PostgreSQL identifier escaping (postgres.rs line 435):
`s.replace("\"", "\"\"")`, i.e. every double quote is doubled. -/
def pgEscape : List Char → List Char
  | [] => []
  | c :: rest => if c = dqChar then dqChar :: dqChar :: pgEscape rest else c :: pgEscape rest

/-- PostgreSQL quoted identifier (postgres.rs line 435):
`format!("\"{}\"", s.replace("\"", "\"\""))`. -/
def pgQuoteIdent (s : String) : String :=
  String.mk (dqChar :: pgEscape s.data ++ [dqChar])

/-- PostgreSQL context switch statement (postgres.rs line 436). -/
def pgSetPath (s : String) : String :=
  "SET search_path TO " ++ pgQuoteIdent s

/-! ### Well-formedness of the synthesized context statements

A context statement is accepted when, after the fixed keyword, the rest
of the statement parses as exactly one quoted identifier with nothing
following it; inside the quotes the quote character is escaped by
doubling (SQL standard for double quotes, MySQL rule for backticks). -/

/-- Scan the interior of a quoted identifier whose opening quote `qc` has
been consumed: a doubled `qc` is a literal `qc`, a single `qc` closes the
identifier.  Returns the unescaped content and the remaining input. -/
def scanQuoted (qc : Char) : List Char → Option (List Char × List Char)
  | [] => none
  | c :: rest =>
    if c = qc then
      match rest with
      | c2 :: rest2 =>
        if c2 = qc then (scanQuoted qc rest2).map (fun p => (qc :: p.1, p.2))
        else some ([], rest)
      | [] => some ([], [])
    else (scanQuoted qc rest).map (fun p => (c :: p.1, p.2))

/-- Parse one quoted identifier: expect the opening quote, then scan. -/
def parseQuotedIdent (qc : Char) : List Char → Option (List Char × List Char)
  | c :: rest => if c = qc then scanQuoted qc rest else none
  | [] => none

/-- Parse a full context statement `kw` + quoted identifier; succeed with
the identifier content only when nothing follows the closing quote, so a
success certifies a single statement ending in a single identifier. -/
def contextSingleIdent (kw : List Char) (qc : Char) (stmt : List Char) : Option (List Char) :=
  if stmt.take kw.length = kw then
    match parseQuotedIdent qc (stmt.drop kw.length) with
    | some (name, []) => some name
    | _ => none
  else none

/-- Single-identifier acceptance of a MySQL `USE` statement. -/
def mysqlUseIdent (stmt : String) : Option (List Char) :=
  contextSingleIdent ("USE ".data) btChar stmt.data

/-- Single-identifier acceptance of a PostgreSQL `SET search_path` statement. -/
def pgSetPathIdent (stmt : String) : Option (List Char) :=
  contextSingleIdent ("SET search_path TO ".data) dqChar stmt.data

/-! ### UTF-8 (Rust `String::from_utf8`, strict RFC 3629 validation) -/

/-- Strict UTF-8 decoder over byte lists: rejects overlong encodings,
surrogates and code points above U+10FFFF, exactly like
`String::from_utf8`. -/
def utf8Decode : List Nat → Option (List Char)
  | [] => some []
  | b :: rest =>
    if b ≤ 127 then (utf8Decode rest).map (Char.ofNat b :: ·)
    else if 194 ≤ b ∧ b ≤ 223 then
      match rest with
      | c :: rest2 =>
        if 128 ≤ c ∧ c ≤ 191 then
          (utf8Decode rest2).map (Char.ofNat ((b - 192) * 64 + (c - 128)) :: ·)
        else none
      | [] => none
    else if 224 ≤ b ∧ b ≤ 239 then
      match rest with
      | c :: d :: rest2 =>
        if ((if b = 224 then 160 else 128) ≤ c ∧ c ≤ (if b = 237 then 159 else 191))
            ∧ 128 ≤ d ∧ d ≤ 191 then
          (utf8Decode rest2).map
            (Char.ofNat ((b - 224) * 4096 + (c - 128) * 64 + (d - 128)) :: ·)
        else none
      | _ => none
    else if 240 ≤ b ∧ b ≤ 244 then
      match rest with
      | c :: d :: e :: rest2 =>
        if ((if b = 240 then 144 else 128) ≤ c ∧ c ≤ (if b = 244 then 143 else 191))
            ∧ (128 ≤ d ∧ d ≤ 191) ∧ 128 ≤ e ∧ e ≤ 191 then
          (utf8Decode rest2).map
            (Char.ofNat ((b - 240) * 262144 + (c - 128) * 4096 + (d - 128) * 64 + (e - 128)) :: ·)
        else none
      | _ => none
    else none

/-! ### Type-coercion engine -/

/-- Embedding of `pg_value_to_json` (postgres.rs lines 54-171): dispatch on
the sqlx type name with a string/integer/float/bool/timestamp fallback
chain for unmatched names. -/
def pg_value_to_json (tn : String) (v : RawValue) : Json :=
  match tn with
  | "INT8" | "BIGINT" =>
    match v.asI64 with | some i => Json.num i | none => Json.null
  | "INT4" | "INTEGER" | "SERIAL" =>
    match v.asI32 with | some i => Json.num i | none => Json.null
  | "INT2" | "SMALLINT" =>
    match v.asI16 with | some i => Json.num i | none => Json.null
  | "FLOAT8" | "DOUBLE PRECISION" =>
    match v.asF64 with
    | some (some q) => Json.num q
    | some none => Json.null
    | none => Json.null
  | "FLOAT4" | "REAL" =>
    match v.asF32 with
    | some (some q) => Json.num q
    | some none => Json.null
    | none => Json.null
  | "NUMERIC" | "DECIMAL" =>
    match v.asDecimal with
    | some s => Json.str s
    | none =>
      match v.asF64 with
      | some (some q) => Json.num q
      | some none => Json.null
      | none => Json.null
  | "BOOL" | "BOOLEAN" =>
    match v.asBool with | some b => Json.bool b | none => Json.null
  | "TIMESTAMPTZ" | "TIMESTAMP WITH TIME ZONE" =>
    match v.asUtc with | some u => Json.str u.rfc3339 | none => Json.null
  | "TIMESTAMP" | "TIMESTAMP WITHOUT TIME ZONE" =>
    match v.asNaiveDateTime with | some s => Json.str s | none => Json.null
  | "DATE" =>
    match v.asDate with | some s => Json.str s | none => Json.null
  | "TIME" | "TIME WITHOUT TIME ZONE" =>
    match v.asTime with | some s => Json.str s | none => Json.null
  | "UUID" =>
    match v.asUuid with | some s => Json.str s | none => Json.null
  | "JSON" | "JSONB" =>
    match v.asJson with | some j => j | none => Json.null
  | _ =>
    match v.asString with
    | some s => Json.str s
    | none =>
    match v.asI64 with
    | some i => Json.num i
    | none =>
    match v.asI32 with
    | some i => Json.num i
    | none =>
    match v.asF64 with
    | some o => (o.map Json.num).getD Json.null
    | none =>
    match v.asBool with
    | some b => Json.bool b
    | none =>
    match v.asUtc with
    | some u => Json.str u.rfc3339
    | none =>
    match v.asNaiveDateTime with
    | some s => Json.str s
    | none => Json.null

/-- Embedding of the inline per-column coercion match of
`MySqlConnector::execute` (mysql.rs lines 199-326).  The type name is
upper-cased first (line 207); arms are checked in source order because
the source match mixes exact arms with `starts_with` guard arms.
`pj` models `serde_json::from_str` on the UTF-8 text of a binary value. -/
def mysqlValueToJson (pj : String → Option Json) (tn0 : String) (v : RawValue) : Json :=
  let tn := rustToUppercase tn0
  if tn = "BIGINT" ∨ tn = "INT" ∨ tn = "SMALLINT" ∨ tn = "TINYINT" ∨ tn = "MEDIUMINT" then
    match v.asI64 with | some i => Json.num i | none => Json.null
  else if tn = "BIGINT UNSIGNED" ∨ tn = "INT UNSIGNED" ∨ tn = "SMALLINT UNSIGNED"
      ∨ tn = "TINYINT UNSIGNED" ∨ tn = "MEDIUMINT UNSIGNED" then
    match v.asU64 with | some n => Json.num n | none => Json.null
  else if tn = "FLOAT" ∨ tn = "DOUBLE" then
    match v.asF64 with
    | some o => (o.map Json.num).getD Json.null
    | none => Json.null
  else if tn = "DECIMAL" ∨ tn = "NEWDECIMAL" then
    match v.asDecimal with
    | some s => Json.str s
    | none =>
      match v.asF64 with
      | some o => (o.map Json.num).getD Json.null
      | none => Json.null
  else if tn = "JSON" then
    match v.asJson with | some j => j | none => Json.null
  else if tn = "DATE" then
    match v.asDate with | some s => Json.str s | none => Json.null
  else if rustStartsWith tn "DATETIME" then
    match v.asOptNaiveDateTime with
    | some (some s) => Json.str s
    | _ => Json.null
  else if rustStartsWith tn "TIMESTAMP" then
    match v.asOptUtc with
    | some (some u) => Json.str u.ymdHms
    | _ => Json.null
  else if rustStartsWith tn "TIME" then
    match v.asTime with | some s => Json.str s | none => Json.null
  else if tn = "BLOB" ∨ tn = "BINARY" ∨ tn = "VARBINARY" ∨ tn = "LONGBLOB"
      ∨ tn = "MEDIUMBLOB" ∨ tn = "TINYBLOB" then
    match v.asJson with
    | some j => j
    | none =>
      match v.asBytes with
      | some bs =>
        match utf8Decode bs with
        | some cs =>
          match pj (String.mk cs) with
          | some j => j
          | none => Json.str (String.mk cs)
        | none => Json.str ("[binary: " ++ toString bs.length ++ " bytes]")
      | none => Json.null
  else if tn = "BOOLEAN" ∨ tn = "BOOL" then
    match v.asBool with | some b => Json.bool b | none => Json.null
  else
    match v.asString with
    | some s => Json.str s
    | none =>
    match v.asNaiveDateTime with
    | some s => Json.str s
    | none =>
    match v.asI64 with
    | some i => Json.num i
    | none =>
    match v.asF64 with
    | some o => (o.map Json.num).getD Json.null
    | none =>
    match v.asBytes.bind utf8Decode with
    | some cs => Json.str (String.mk cs)
    | none => Json.null

/-! ### Connector execution pipeline

The sqlx pool is modelled by its two execution entry points
(`fetch_all` = run as row-returning query, `execute` = run as statement
returning an affected-row count) plus the information-schema column
lookup the empty-result path performs.  A fetched row is the list of its
column descriptors paired with the decode outcomes of its values. -/

/-- Error carrier for `sqlx::Error` (only its identity matters here). -/
abbrev DbError := String

/-- Column descriptor exposed by a fetched row (`col.name()`,
`col.type_info().name()`). -/
structure ColumnMeta where
  name : String
  typeName : String

/-- One fetched row: column descriptors with per-column decode outcomes. -/
abbrev Row := List (ColumnMeta × RawValue)

/-- `ColumnInfo` of connector.rs. -/
structure ColumnInfo where
  name : String
  data_type : String
  nullable : Bool

/-- `QueryResult` of connector.rs.  `execution_time_ms` is wall-clock time
in the source and is fixed to 0 in this timeless embedding. -/
structure QueryResult where
  columns : List ColumnInfo
  rows : List (List Json)
  affected_rows : Nat
  execution_time_ms : Nat
  original_query : Option String
  executed_query : Option String

/-- MySQL pool oracle.  `infoColumns t` models the parameterized
information_schema.COLUMNS lookup bound to table name `t`, each row
already passed through `get_string_from_row` (hence `Option String`). -/
structure MySqlPool where
  fetchAll : String → Except DbError (List Row)
  runExec : String → Except DbError Nat
  infoColumns : String → Except DbError (List (Option String × Option String))

/-- PostgreSQL pool oracle.  `infoColumns t` models the parameterized
information_schema.columns lookup bound to table name `t`; the source
reads those columns with `row.get::<String>` (infallible there). -/
structure PgPool where
  fetchAll : String → Except DbError (List Row)
  runExec : String → Except DbError Nat
  infoColumns : String → Except DbError (List (String × String))

/-- Column inference for an empty MySQL result set
(mysql.rs lines 164-197). -/
def mysqlInferColumns (be : MySqlPool) (q : String) : List ColumnInfo :=
  if rustStartsWith (rustToUppercase (rustTrim q)) "SELECT" then
    match extract_table_from_select q with
    | some t =>
      match be.infoColumns t with
      | .ok irows =>
        irows.filterMap (fun r =>
          match r.1, r.2 with
          | some n, some d => some ⟨n, d, true⟩
          | _, _ => none)
      | .error _ => []
    | none => []
  else []

/-- Column metadata of a MySQL result (mysql.rs lines 154-197): read off
the first row when rows exist, otherwise inferred from the catalog. -/
def mysqlQueryColumns (be : MySqlPool) (q : String) (rows : List Row) : List ColumnInfo :=
  match rows with
  | r :: _ => r.map (fun p => ⟨p.1.name, p.1.typeName, true⟩)
  | [] => mysqlInferColumns be q

/-- Embedding of `MySqlConnector::execute` (mysql.rs lines 142-356):
first attempt the statement as a row-returning query; only if that
fails, retry it as an affected-row-count statement, whose error (if any)
is the one surfaced. -/
def mysqlExecute (pj : String → Option Json) (be : MySqlPool) (q : String) :
    Except DbError QueryResult :=
  match be.fetchAll q with
  | .ok rows =>
    .ok { columns := mysqlQueryColumns be q rows
          rows := rows.map (fun r => r.map (fun p => mysqlValueToJson pj p.1.typeName p.2))
          affected_rows := 0
          execution_time_ms := 0
          original_query := none
          executed_query := none }
  | .error _ =>
    match be.runExec q with
    | .ok n =>
      .ok { columns := [], rows := [], affected_rows := n, execution_time_ms := 0
            original_query := none, executed_query := none }
    | .error e => .error e

/-- Embedding of `MySqlConnector::execute_with_context`
(mysql.rs lines 116-140): when a context database is given, first run
`USE` (its failure is surfaced directly), then delegate to `execute` and
stamp the diagnostic query fields. -/
def mysqlExecuteWithContext (pj : String → Option Json) (be : MySqlPool)
    (q : String) (ctx : Option String) : Except DbError QueryResult :=
  match ctx with
  | some db =>
    match be.runExec (mysqlUseStmt db) with
    | .error e => .error e
    | .ok _ =>
      (mysqlExecute pj be q).map (fun r =>
        { r with original_query := some q
                 executed_query := some (mysqlUseStmt db ++ ";\n" ++ q) })
  | none =>
    (mysqlExecute pj be q).map (fun r =>
      { r with original_query := some q, executed_query := some q })

/-- Column inference for an empty PostgreSQL result set
(postgres.rs lines 462-489 and 555-582). -/
def pgInferColumns (pool : PgPool) (q : String) : List ColumnInfo :=
  if rustStartsWith (rustToUppercase (rustTrim q)) "SELECT" then
    match extract_table_from_select q with
    | some t =>
      match pool.infoColumns t with
      | .ok irows => irows.map (fun r => ⟨r.1, r.2, true⟩)
      | .error _ => []
    | none => []
  else []

/-- Column metadata of a PostgreSQL result. -/
def pgQueryColumns (pool : PgPool) (q : String) (rows : List Row) : List ColumnInfo :=
  match rows with
  | r :: _ => r.map (fun p => ⟨p.1.name, p.1.typeName, true⟩)
  | [] => pgInferColumns pool q

/-- Statement-execution tail shared verbatim by `PostgresConnector::execute`
(postgres.rs lines 536-624) and by `execute_with_context`
(postgres.rs lines 443-529); the two sites differ only in the diagnostic
query fields `orig`/`exec`.  Row-returning attempt first; on its failure
the affected-row-count retry decides the outcome. -/
def pgRunStatement (pool : PgPool) (q : String) (orig exec : Option String) :
    Except DbError QueryResult :=
  match pool.fetchAll q with
  | .ok rows =>
    .ok { columns := pgQueryColumns pool q rows
          rows := rows.map (fun r => r.map (fun p => pg_value_to_json p.1.typeName p.2))
          affected_rows := 0
          execution_time_ms := 0
          original_query := orig
          executed_query := exec }
  | .error _ =>
    match pool.runExec q with
    | .ok n =>
      .ok { columns := [], rows := [], affected_rows := n, execution_time_ms := 0
            original_query := orig, executed_query := exec }
    | .error e => .error e

/-- Embedding of `PostgresConnector::execute` (postgres.rs lines 532-624);
the default pool has already been resolved into `pool`. -/
def pgExecute (pool : PgPool) (q : String) : Except DbError QueryResult :=
  pgRunStatement pool q none none

/-- Embedding of `PostgresConnector::execute_with_context`
(postgres.rs lines 413-530) after pool resolution (the `database`
argument only selects `pool`, which is passed in resolved; the pool
registry itself is modelled separately below).  A given schema is set
via `SET search_path` whose failure is surfaced directly. -/
def pgExecuteWithContext (pool : PgPool) (q : String) (schema : Option String) :
    Except DbError QueryResult :=
  match schema with
  | some s =>
    let setQ := pgSetPath s
    match pool.runExec setQ with
    | .error e => .error e
    | .ok _ => pgRunStatement pool q (some q) (some (setQ ++ ";\n" ++ q))
  | none => pgRunStatement pool q (some q) (some q)

/-! ### Pool registry: eviction sweep and close
(postgres.rs lines 288-345 and 861-868) -/

/-- Entry of the per-database pool map: pool identity, last-used time in
seconds, and whether `close()` has been called on the pool. -/
structure PoolEntry where
  poolId : Nat
  lastUsed : Nat
  closed : Bool
deriving DecidableEq

/-- Eviction predicate of one sweep iteration (postgres.rs lines 306-318):
a non-default entry idle for strictly more than the 300-second TTL. -/
def evictable (defaultDb : String) (now : Nat) (e : String × PoolEntry) : Bool :=
  decide (e.1 ≠ defaultDb ∧ 300 < now - e.2.lastUsed)

/-- One sweep of the background pool evictor (postgres.rs lines 297-341):
collect every evictable entry, remove each from the map and close its
pool.  Returns the surviving map and the ids of the closed pools.  The
map keys are distinct (HashMap), so collect-then-remove is a filter. -/
def evictSweep (defaultDb : String) (now : Nat) (m : List (String × PoolEntry)) :
    List (String × PoolEntry) × List Nat :=
  (m.filter (fun e => ! evictable defaultDb now e),
   (m.filter (evictable defaultDb now)).map (fun e => e.2.poolId))

/-- Observable state of a `PostgresConnector`: its pool map, default
database name, and whether the spawned eviction loop is still alive. -/
structure PostgresConnectorState where
  pools : List (String × PoolEntry)
  defaultDatabase : String
  evictorAlive : Bool

/-- Embedding of `PostgresConnector::connect` (postgres.rs lines 224-282)
after a successful initial connection: the map holds the default
database entry and `start_pool_evictor` has spawned the sweep loop
(a `tokio::spawn` whose body is `loop { ... }` with no exit branch). -/
def pgConnect (defaultDb : String) (poolId : Nat) : PostgresConnectorState :=
  { pools := [(defaultDb, { poolId := poolId, lastUsed := 0, closed := false })]
    defaultDatabase := defaultDb
    evictorAlive := true }

/-- Embedding of `PostgresConnector::close` (postgres.rs lines 861-868):
read the map and call `close()` on every entry pool.  Nothing else is
touched: the map keeps its entries and no signal reaches the eviction
task (the source stores no handle to it and its loop has no exit). -/
def pgClose (s : PostgresConnectorState) : PostgresConnectorState :=
  { s with pools := s.pools.map (fun e => (e.1, { e.2 with closed := true })) }

/-! ### Fallback chains, spec-side and code-side -/

/-- First hit of a list of decode candidates: `some j` means the decode
step fired (producing `j`, possibly `Json.null` for a non-finite float)
and stops the chain; `none` means it is skipped. -/
def firstHit : List (Option Json) → Json
  | [] => Json.null
  | some j :: _ => j
  | none :: rest => firstHit rest

/-- Modelled from the claim wording of C7: fallback chain "string, then
integer, then float, then boolean, then timestamp decode, then raw bytes
as UTF-8; first success wins, else null". -/
def specFallbackChain (v : RawValue) : Json :=
  firstHit
    [v.asString.map Json.str,
     v.asI64.map (fun i => Json.num i),
     v.asF64.map (fun o => (o.map Json.num).getD Json.null),
     v.asBool.map Json.bool,
     v.asNaiveDateTime.map Json.str,
     (v.asBytes.bind utf8Decode).map (fun cs => Json.str (String.mk cs))]

/-- Fallback chain the MySQL coercion actually implements
(mysql.rs lines 298-325): string, naive timestamp, 64-bit integer,
float, raw bytes as UTF-8. -/
def mysqlFallbackChain (v : RawValue) : Json :=
  firstHit
    [v.asString.map Json.str,
     v.asNaiveDateTime.map Json.str,
     v.asI64.map (fun i => Json.num i),
     v.asF64.map (fun o => (o.map Json.num).getD Json.null),
     (v.asBytes.bind utf8Decode).map (fun cs => Json.str (String.mk cs))]

/-- Fallback chain the PostgreSQL coercion actually implements
(postgres.rs lines 135-169): string, 64-bit integer, 32-bit integer,
float, boolean, timezone-aware timestamp, naive timestamp. -/
def pgFallbackChain (v : RawValue) : Json :=
  firstHit
    [v.asString.map Json.str,
     v.asI64.map (fun i => Json.num i),
     v.asI32.map (fun i => Json.num i),
     v.asF64.map (fun o => (o.map Json.num).getD Json.null),
     v.asBool.map Json.bool,
     v.asUtc.map (fun u => Json.str u.rfc3339),
     v.asNaiveDateTime.map Json.str]

/-! ### Dispatch-table key sets (for the unmatched-type fallback claims) -/

/-- Exact type names matched by a MySQL coercion dispatch arm
(mysql.rs lines 210-297). -/
def mysqlDispatchKeys : List String :=
  ["BIGINT", "INT", "SMALLINT", "TINYINT", "MEDIUMINT",
   "BIGINT UNSIGNED", "INT UNSIGNED", "SMALLINT UNSIGNED", "TINYINT UNSIGNED",
   "MEDIUMINT UNSIGNED", "FLOAT", "DOUBLE", "DECIMAL", "NEWDECIMAL", "JSON",
   "DATE", "BLOB", "BINARY", "VARBINARY", "LONGBLOB", "MEDIUMBLOB", "TINYBLOB",
   "BOOLEAN", "BOOL"]

/-- Whether an upper-cased type name is handled by a MySQL dispatch arm:
an exact arm or one of the three `starts_with` guard arms. -/
def mysqlDispatchHit (u : String) : Bool :=
  decide (u ∈ mysqlDispatchKeys) || rustStartsWith u "DATETIME"
    || rustStartsWith u "TIMESTAMP" || rustStartsWith u "TIME"

/-- Exact type names matched by a PostgreSQL coercion dispatch arm
(postgres.rs lines 55-133). -/
def pgDispatchKeys : List String :=
  ["INT8", "BIGINT", "INT4", "INTEGER", "SERIAL", "INT2", "SMALLINT",
   "FLOAT8", "DOUBLE PRECISION", "FLOAT4", "REAL", "NUMERIC", "DECIMAL",
   "BOOL", "BOOLEAN", "TIMESTAMPTZ", "TIMESTAMP WITH TIME ZONE",
   "TIMESTAMP", "TIMESTAMP WITHOUT TIME ZONE", "DATE", "TIME",
   "TIME WITHOUT TIME ZONE", "UUID", "JSON", "JSONB"]

/-! ### Concrete fixtures used by witness theorems -/

/-- JSON-text parser oracle that never parses (one concrete instance of
the `serde_json::from_str` parameter). -/
def pjNone : String → Option Json := fun _ => none

/-- MySQL pool on which both execution attempts fail. -/
def beFail : MySqlPool :=
  ⟨fun _ => .error "first failure", fun _ => .error "second failure", fun _ => .ok []⟩

/-- MySQL pool whose row-returning attempt succeeds with zero rows. -/
def beOkEmpty : MySqlPool := ⟨fun _ => .ok [], fun _ => .ok 3, fun _ => .ok []⟩

/-- Same as `beOkEmpty` except for the affected-row-count oracle. -/
def beOkEmptyAlt : MySqlPool := ⟨fun _ => .ok [], fun _ => .error "ignored", fun _ => .ok []⟩

/-- PostgreSQL pool on which both execution attempts fail. -/
def poolFail : PgPool :=
  ⟨fun _ => .error "first failure", fun _ => .error "second failure", fun _ => .ok []⟩

/-- PostgreSQL pool whose row-returning attempt succeeds with zero rows. -/
def poolOkEmpty : PgPool := ⟨fun _ => .ok [], fun _ => .ok 3, fun _ => .ok []⟩

/-- Same as `poolOkEmpty` except for the affected-row-count oracle. -/
def poolOkEmptyAlt : PgPool := ⟨fun _ => .ok [], fun _ => .error "ignored", fun _ => .ok []⟩

/-- Decimal column value decoding both as exact decimal text and as float. -/
def vDec : RawValue := { asDecimal := some "12.340", asF64 := some (some 99) }

/-- Column value decoding only as a (finite) float. -/
def vFloat : RawValue := { asF64 := some (some (3 / 2)) }

/-- Column value decoding only as a 64-bit integer. -/
def vInt : RawValue := { asI64 := some 7 }

/-- Binary column value that decodes directly as JSON. -/
def vJsonBlob : RawValue := { asJson := some (Json.num 5) }

/-- Binary column value whose bytes are valid UTF-8. -/
def vUtfBlob : RawValue := { asBytes := some [104, 105] }

/-- Binary column value whose bytes are not valid UTF-8. -/
def vBinBlob : RawValue := { asBytes := some [255] }

/-- Pool map with a default entry, an idle non-default entry past the TTL
and a recently used non-default entry, at sweep time 1000. -/
def sweepMap : List (String × PoolEntry) :=
  [("app", ⟨1, 0, false⟩), ("idle", ⟨2, 100, false⟩), ("warm", ⟨3, 900, false⟩)]

/-! ### Supporting lemmas for the context-switch quoting claims -/

/-- Scanning the PostgreSQL-escaped text of `s` followed by a closing
quote recovers exactly `s` with nothing left over. -/
theorem scanQuoted_pgEscape (s : List Char) :
    scanQuoted dqChar (pgEscape s ++ [dqChar]) = some (s, []) := by
  induction s with
  | nil => simp [pgEscape, scanQuoted]
  | cons c rest ih =>
    by_cases hc : c = dqChar
    · subst hc; simp [pgEscape, scanQuoted, ih]
    · rcases hM : pgEscape rest ++ [dqChar] with _ | ⟨m, ms⟩
      · exact absurd hM (by simp)
      · simp only [pgEscape, hc, if_false, List.cons_append, hM, scanQuoted,
          if_neg hc]
        rw [← hM, ih]
        rfl

/-- Scanning quote-free text followed by a closing quote recovers exactly
that text with nothing left over. -/
theorem scanQuoted_noQuote (qc : Char) (s : List Char) (h : qc ∉ s) :
    scanQuoted qc (s ++ [qc]) = some (s, []) := by
  induction s with
  | nil => simp [scanQuoted]
  | cons c rest ih =>
    have hc : c ≠ qc := fun he => h (he ▸ List.mem_cons_self c rest)
    have hr : qc ∉ rest := fun hm => h (List.mem_cons_of_mem c hm)
    rcases hM : rest ++ [qc] with _ | ⟨m, ms⟩
    · exact absurd hM (by simp)
    · simp only [List.cons_append, hM, scanQuoted, if_neg hc]
      rw [← hM, ih hr]
      rfl

/-- A PostgreSQL `SET search_path` statement always parses as the keyword
followed by a single well-formed quoted identifier whose content is the
original schema name, with nothing after the closing quote. -/
theorem pgSetPathIdent_eq (s : String) :
    pgSetPathIdent (pgSetPath s) = some s.data := by
  have hdata : (pgSetPath s).data
      = "SET search_path TO ".data ++ (dqChar :: (pgEscape s.data ++ [dqChar])) := by
    show ("SET search_path TO " ++ pgQuoteIdent s).data = _
    rw [String.data_append]
    rfl
  unfold pgSetPathIdent contextSingleIdent
  rw [hdata, List.take_left, List.drop_left, if_pos rfl]
  simp [parseQuotedIdent, scanQuoted_pgEscape]

/-- A MySQL `USE` statement for a backtick-free database name parses as
the keyword followed by a single well-formed quoted identifier whose
content is the original name, with nothing after the closing quote. -/
theorem mysqlUseIdent_eq (db : String) (h : btChar ∉ db.data) :
    mysqlUseIdent (mysqlUseStmt db) = some db.data := by
  have hdata : (mysqlUseStmt db).data
      = "USE ".data ++ (btChar :: (db.data ++ [btChar])) := by
    show (("USE `" ++ db) ++ "`").data = _
    rw [String.data_append, String.data_append]
    show ("USE ".data ++ [btChar]) ++ db.data ++ [btChar] = _
    simp
  unfold mysqlUseIdent contextSingleIdent
  rw [hdata, List.take_left, List.drop_left, if_pos rfl]
  simp [parseQuotedIdent, scanQuoted_noQuote btChar db.data h]

/-! ### Claim theorems -/

/-- C1: for every SQL statement, `execute` on both backend connectors and
the statement-execution tail of `execute_with_context` first attempt the
statement as a row-returning query (when that attempt succeeds the result
does not depend on the affected-row-count oracle at all); the
affected-row-count retry decides the outcome exactly when the first
attempt fails, the error surfaced to the caller is the second attempt's
error, and the first attempt's error `e1` never appears in the result. -/
theorem execute_two_phase_retry : ∀ (pj : String → Option Json) (be be2 : MySqlPool)
    (pool pool2 : PgPool) (q : String) (orig exec : Option String),
    (be.fetchAll = be2.fetchAll → be.infoColumns = be2.infoColumns →
      (be.fetchAll q).isOk → mysqlExecute pj be q = mysqlExecute pj be2 q)
    ∧ (∀ e1, be.fetchAll q = .error e1 →
        (∀ n, be.runExec q = .ok n → mysqlExecute pj be q =
          .ok { columns := [], rows := [], affected_rows := n, execution_time_ms := 0,
                original_query := none, executed_query := none })
        ∧ (∀ e2, be.runExec q = .error e2 → mysqlExecute pj be q = .error e2))
    ∧ (pool.fetchAll = pool2.fetchAll → pool.infoColumns = pool2.infoColumns →
      (pool.fetchAll q).isOk →
        pgRunStatement pool q orig exec = pgRunStatement pool2 q orig exec)
    ∧ (∀ e1, pool.fetchAll q = .error e1 →
        (∀ n, pool.runExec q = .ok n → pgRunStatement pool q orig exec =
          .ok { columns := [], rows := [], affected_rows := n, execution_time_ms := 0,
                original_query := orig, executed_query := exec })
        ∧ (∀ e2, pool.runExec q = .error e2 →
            pgRunStatement pool q orig exec = .error e2)) := by
  intro pj be be2 pool pool2 q orig exec
  refine ⟨?_, ?_, ?_, ?_⟩
  · intro hf hi hok
    rcases hfa : be.fetchAll q with e | rows
    · rw [hfa] at hok; exact absurd hok (by simp [Except.isOk, Except.toBool])
    · have hcols : mysqlQueryColumns be q rows = mysqlQueryColumns be2 q rows := by
        cases rows with
        | nil => simp [mysqlQueryColumns, mysqlInferColumns, hi]
        | cons r t => rfl
      rw [mysqlExecute, mysqlExecute, hfa, ← hf, hfa]
      dsimp only
      rw [hcols]
  · intro e1 he1
    constructor
    · intro n hn; rw [mysqlExecute, he1, hn]
    · intro e2 he2; rw [mysqlExecute, he1, he2]
  · intro hf hi hok
    rcases hfa : pool.fetchAll q with e | rows
    · rw [hfa] at hok; exact absurd hok (by simp [Except.isOk, Except.toBool])
    · have hcols : pgQueryColumns pool q rows = pgQueryColumns pool2 q rows := by
        cases rows with
        | nil => simp [pgQueryColumns, pgInferColumns, hi]
        | cons r t => rfl
      rw [pgRunStatement, pgRunStatement, hfa, ← hf, hfa]
      dsimp only
      rw [hcols]
  · intro e1 he1
    constructor
    · intro n hn; rw [pgRunStatement, he1, hn]
    · intro e2 he2; rw [pgRunStatement, he1, he2]

/-- Witness for C1 at concrete pools: both attempts failing surfaces the
second failure on either backend, and a successful first attempt makes
the result independent of the retry oracle. -/
theorem execute_two_phase_retry_witness :
    mysqlExecute pjNone beFail "SELECT 1" = .error "second failure"
    ∧ pgRunStatement poolFail "SELECT 1" none none = .error "second failure"
    ∧ mysqlExecute pjNone beOkEmpty "SELECT 1" = mysqlExecute pjNone beOkEmptyAlt "SELECT 1"
    ∧ pgRunStatement poolOkEmpty "SELECT 1" none none
        = pgRunStatement poolOkEmptyAlt "SELECT 1" none none := by
  refine ⟨?_, ?_, ?_, ?_⟩
  · exact ((execute_two_phase_retry pjNone beFail beFail poolFail poolFail
      "SELECT 1" none none).2.1 "first failure" rfl).2 "second failure" rfl
  · exact ((execute_two_phase_retry pjNone beFail beFail poolFail poolFail
      "SELECT 1" none none).2.2.2 "first failure" rfl).2 "second failure" rfl
  · exact (execute_two_phase_retry pjNone beOkEmpty beOkEmptyAlt poolFail poolFail
      "SELECT 1" none none).1 rfl rfl rfl
  · exact (execute_two_phase_retry pjNone beFail beFail poolOkEmpty poolOkEmptyAlt
      "SELECT 1" none none).2.2.1 rfl rfl rfl

/-- C2 counterexample: the claim fails on the MySQL builder.  For the
database name containing a backtick the synthesized `USE` statement is
not a single well-formed quoted identifier: the backtick in the name
closes the identifier early and the rest of the name, including a
semicolon and a second statement, lands outside the quotes. -/
theorem mysql_context_quoting_counterexample :
    mysqlUseStmt "a`; DROP TABLE t; --" = "USE `a`; DROP TABLE t; --`"
    ∧ mysqlUseIdent (mysqlUseStmt "a`; DROP TABLE t; --") = none
    ∧ parseQuotedIdent btChar ((mysqlUseStmt "a`; DROP TABLE t; --").data.drop 4)
        = some ("a".data, "; DROP TABLE t; --`".data) := by
  exact ⟨rfl, rfl, by decide⟩

/-- C2 amended: the PostgreSQL builder quotes and escapes every schema
name (quotes and semicolons included) into a single well-formed
identifier with nothing following it; the MySQL builder does so exactly
for database names that contain no backtick (backtick names break its
unescaped interpolation). -/
theorem context_switch_quoting_amended : ∀ (s db : String),
    pgSetPathIdent (pgSetPath s) = some s.data
    ∧ (btChar ∉ db.data → mysqlUseIdent (mysqlUseStmt db) = some db.data) := by
  intro s db
  exact ⟨pgSetPathIdent_eq s, mysqlUseIdent_eq db⟩

/-- Witness for C2 amended: a schema name holding a quote and a semicolon
still round-trips through the PostgreSQL builder, and a plain database
name round-trips through the MySQL builder. -/
theorem context_switch_quoting_amended_witness :
    pgSetPathIdent (pgSetPath "pub\"lic; DROP x") = some ("pub\"lic; DROP x".data)
    ∧ mysqlUseIdent (mysqlUseStmt "mydb") = some ("mydb".data) := by
  exact ⟨(context_switch_quoting_amended "pub\"lic; DROP x" "mydb").1,
    (context_switch_quoting_amended "pub\"lic; DROP x" "mydb").2 (by decide)⟩

/-- C3: both type-coercion functions are total (they yield some JSON value
on every type name and every raw value, never an error), and on a value
whose every driver decode fails every branch — for every type name —
yields JSON null rather than an error. -/
theorem type_coercion_total_null_on_failure : ∀ (pj : String → Option Json) (tn : String),
    mysqlValueToJson pj tn rawNone = Json.null
    ∧ pg_value_to_json tn rawNone = Json.null
    ∧ (∀ v : RawValue, ∃ j : Json, mysqlValueToJson pj tn v = j)
    ∧ (∀ v : RawValue, ∃ j : Json, pg_value_to_json tn v = j) := by
  intro pj tn
  refine ⟨?_, ?_, fun v => ⟨_, rfl⟩, fun v => ⟨_, rfl⟩⟩
  · simp [mysqlValueToJson, rawNone]
  · unfold pg_value_to_json
    split <;> simp [rawNone]

/-- C4: for NUMERIC/DECIMAL (PostgreSQL) and DECIMAL/NEWDECIMAL (MySQL)
columns, a successful exact-decimal decode yields a JSON string carrying
the decimal's exact textual representation, never a float; a
floating-point JSON number arises only when the exact-decimal decode
failed; JSON null results when both decodes fail (including a float
decode of a non-finite value). -/
theorem decimal_coercion_exact_string : ∀ (pj : String → Option Json) (v : RawValue),
    (∀ s, v.asDecimal = some s →
      mysqlValueToJson pj "DECIMAL" v = Json.str s
      ∧ mysqlValueToJson pj "NEWDECIMAL" v = Json.str s
      ∧ pg_value_to_json "NUMERIC" v = Json.str s
      ∧ pg_value_to_json "DECIMAL" v = Json.str s)
    ∧ (∀ q, v.asDecimal = none → v.asF64 = some (some q) →
      mysqlValueToJson pj "DECIMAL" v = Json.num q
      ∧ mysqlValueToJson pj "NEWDECIMAL" v = Json.num q
      ∧ pg_value_to_json "NUMERIC" v = Json.num q
      ∧ pg_value_to_json "DECIMAL" v = Json.num q)
    ∧ (v.asDecimal = none → v.asF64 = none →
      mysqlValueToJson pj "DECIMAL" v = Json.null
      ∧ pg_value_to_json "NUMERIC" v = Json.null)
    ∧ (v.asDecimal = none → v.asF64 = some none →
      mysqlValueToJson pj "DECIMAL" v = Json.null
      ∧ pg_value_to_json "NUMERIC" v = Json.null)
    ∧ (∀ q, pg_value_to_json "NUMERIC" v = Json.num q → v.asDecimal = none)
    ∧ (∀ q, mysqlValueToJson pj "DECIMAL" v = Json.num q → v.asDecimal = none) := by
  intro pj v
  have hmy1 : mysqlValueToJson pj "DECIMAL" v
      = (match v.asDecimal with
         | some s => Json.str s
         | none => match v.asF64 with
           | some o => (o.map Json.num).getD Json.null
           | none => Json.null) := rfl
  have hmy2 : mysqlValueToJson pj "NEWDECIMAL" v
      = (match v.asDecimal with
         | some s => Json.str s
         | none => match v.asF64 with
           | some o => (o.map Json.num).getD Json.null
           | none => Json.null) := rfl
  have hpg1 : pg_value_to_json "NUMERIC" v
      = (match v.asDecimal with
         | some s => Json.str s
         | none => match v.asF64 with
           | some (some q) => Json.num q
           | some none => Json.null
           | none => Json.null) := rfl
  have hpg2 : pg_value_to_json "DECIMAL" v
      = (match v.asDecimal with
         | some s => Json.str s
         | none => match v.asF64 with
           | some (some q) => Json.num q
           | some none => Json.null
           | none => Json.null) := rfl
  refine ⟨?_, ?_, ?_, ?_, ?_, ?_⟩
  · intro s hs; rw [hmy1, hmy2, hpg1, hpg2, hs]; exact ⟨rfl, rfl, rfl, rfl⟩
  · intro q hd hf; rw [hmy1, hmy2, hpg1, hpg2, hd, hf]; exact ⟨rfl, rfl, rfl, rfl⟩
  · intro hd hf; rw [hmy1, hpg1, hd, hf]; exact ⟨rfl, rfl⟩
  · intro hd hf; rw [hmy1, hpg1, hd, hf]; exact ⟨rfl, rfl⟩
  · intro q hq
    rcases hd : v.asDecimal with _ | s
    · rfl
    · rw [hpg1, hd] at hq; exact absurd hq (by simp)
  · intro q hq
    rcases hd : v.asDecimal with _ | s
    · rfl
    · rw [hmy1, hd] at hq; exact absurd hq (by simp)

/-- Witness for C4: a value carrying decimal text "12.340" (and also a
float decode) coerces to that exact JSON string on both backends, and a
float-only value coerces to a JSON number. -/
theorem decimal_coercion_exact_string_witness :
    mysqlValueToJson pjNone "DECIMAL" vDec = Json.str "12.340"
    ∧ pg_value_to_json "NUMERIC" vDec = Json.str "12.340"
    ∧ mysqlValueToJson pjNone "NEWDECIMAL" vFloat = Json.num (3 / 2)
    ∧ pg_value_to_json "DECIMAL" vFloat = Json.num (3 / 2) := by
  refine ⟨?_, ?_, ?_, ?_⟩
  · exact ((decimal_coercion_exact_string pjNone vDec).1 "12.340" rfl).1
  · exact ((decimal_coercion_exact_string pjNone vDec).1 "12.340" rfl).2.2.1
  · exact ((decimal_coercion_exact_string pjNone vFloat).2.1 (3 / 2) rfl rfl).2.1
  · exact ((decimal_coercion_exact_string pjNone vFloat).2.1 (3 / 2) rfl rfl).2.2.2

/-- C5: in one sweep of the pool evictor, every map entry idle strictly
longer than the 300-second TTL is removed and its pool closed unless it
is the default database's entry, which survives regardless of idle time;
entries within the TTL survive; the sweep of an empty map is a no-op and
the sweep of an all-exempt map returns it unchanged and closes nothing. -/
theorem pool_evictor_sweep_spec : ∀ (d : String) (now : Nat) (m : List (String × PoolEntry)),
    (∀ n e, (n, e) ∈ m → n ≠ d → 300 < now - e.lastUsed →
      ((n, e) ∉ (evictSweep d now m).1 ∧ e.poolId ∈ (evictSweep d now m).2))
    ∧ (∀ e, (d, e) ∈ m → (d, e) ∈ (evictSweep d now m).1)
    ∧ (∀ n e, (n, e) ∈ m → now - e.lastUsed ≤ 300 → (n, e) ∈ (evictSweep d now m).1)
    ∧ evictSweep d now [] = ([], [])
    ∧ ((∀ p ∈ m, p.1 = d ∨ now - p.2.lastUsed ≤ 300) →
        evictSweep d now m = (m, [])) := by
  intro d now m
  refine ⟨?_, ?_, ?_, rfl, ?_⟩
  · intro n e hm hnd hidle
    have hev : evictable d now (n, e) = true := by
      simp [evictable, hnd, hidle]
    constructor
    · intro hmem
      rw [evictSweep, List.mem_filter] at hmem
      simp [hev] at hmem
    · rw [evictSweep]
      exact List.mem_map.mpr ⟨(n, e), List.mem_filter.mpr ⟨hm, hev⟩, rfl⟩
  · intro e hm
    have hev : evictable d now (d, e) = false := by simp [evictable]
    rw [evictSweep, List.mem_filter]
    exact ⟨hm, by simp [hev]⟩
  · intro n e hm hidle
    have hev : evictable d now (n, e) = false := by
      simp [evictable]
      intro _
      omega
    rw [evictSweep, List.mem_filter]
    exact ⟨hm, by simp [hev]⟩
  · intro hall
    have h1 : ∀ p ∈ m, evictable d now p = false := by
      intro p hp
      rcases hall p hp with h | h <;> simp [evictable, h]
    rw [evictSweep]
    refine Prod.ext ?_ ?_
    · simp only []
      exact List.filter_eq_self.mpr (by intro a ha; simp [h1 a ha])
    · simp only []
      rw [List.filter_eq_nil_iff.mpr (by intro a ha; simp [h1 a ha])]
      rfl

/-- Witness for C5 on a concrete map at sweep time 1000: the idle
non-default entry is evicted and its pool closed, the default entry
survives despite exceeding the TTL, the fresh entry survives, and the
empty-map sweep is a no-op. -/
theorem pool_evictor_sweep_spec_witness :
    ("idle", (⟨2, 100, false⟩ : PoolEntry)) ∉ (evictSweep "app" 1000 sweepMap).1
    ∧ 2 ∈ (evictSweep "app" 1000 sweepMap).2
    ∧ ("app", (⟨1, 0, false⟩ : PoolEntry)) ∈ (evictSweep "app" 1000 sweepMap).1
    ∧ ("warm", (⟨3, 900, false⟩ : PoolEntry)) ∈ (evictSweep "app" 1000 sweepMap).1
    ∧ evictSweep "app" 1000 [] = ([], []) := by
  refine ⟨?_, ?_, ?_, ?_, ?_⟩
  · exact ((pool_evictor_sweep_spec "app" 1000 sweepMap).1 "idle" ⟨2, 100, false⟩
      (by decide) (by decide) (by decide)).1
  · exact ((pool_evictor_sweep_spec "app" 1000 sweepMap).1 "idle" ⟨2, 100, false⟩
      (by decide) (by decide) (by decide)).2
  · exact (pool_evictor_sweep_spec "app" 1000 sweepMap).2.1 ⟨1, 0, false⟩ (by decide)
  · exact (pool_evictor_sweep_spec "app" 1000 sweepMap).2.2.1 "warm" ⟨3, 900, false⟩
      (by decide) (by decide)
  · exact (pool_evictor_sweep_spec "app" 1000 []).2.2.2.1

/-- C6 counterexample: the claim fails on the code.  After `close()` on a
freshly connected connector every pool is closed, but the eviction sweep
task does not stop: `close` never touches it, the spawned loop has no
exit branch and no handle to it is kept, so the claimed conjunction is
false at this concrete connector state. -/
theorem close_stops_evictor_counterexample :
    ¬ ((∀ p ∈ (pgClose (pgConnect "postgres" 0)).pools, p.2.closed = true)
      ∧ (pgClose (pgConnect "postgres" 0)).evictorAlive = false) := by
  intro h
  have hh := h.2
  simp [pgClose, pgConnect] at hh

/-- C6 amended: `close()` closes every pool in the map (default and
non-default alike), but the background eviction task is left exactly as
it was — it keeps running, since nothing in `close` reaches it. -/
theorem close_closes_pools_evictor_survives : ∀ (s : PostgresConnectorState),
    (∀ p ∈ (pgClose s).pools, p.2.closed = true)
    ∧ (pgClose s).evictorAlive = s.evictorAlive := by
  intro s
  constructor
  · intro p hp
    rw [pgClose] at hp
    simp only [List.mem_map] at hp
    obtain ⟨q, _, hq⟩ := hp
    rw [← hq]
  · rfl

/-- Witness for C6 amended at a freshly connected connector: its single
(default) pool entry is closed by `close()` while the evictor task is
still alive afterwards. -/
theorem close_closes_pools_evictor_survives_witness :
    (("postgres", (⟨0, 0, true⟩ : PoolEntry)) : String × PoolEntry).2.closed = true
    ∧ (pgClose (pgConnect "postgres" 0)).evictorAlive = (pgConnect "postgres" 0).evictorAlive := by
  exact ⟨(close_closes_pools_evictor_survives (pgConnect "postgres" 0)).1
      ("postgres", ⟨0, 0, true⟩) (by decide),
    (close_closes_pools_evictor_survives (pgConnect "postgres" 0)).2⟩

/-- C7 counterexample: the claimed uniform fallback chain (string, then
integer, then float, then boolean, then timestamp, then raw bytes as
UTF-8) disagrees with both backends at concrete inputs: MySQL returns
null on a value only decodable as boolean (it has no boolean fallback
step), and PostgreSQL returns null on a value only decodable as UTF-8
bytes (it has no raw-bytes fallback step). -/
theorem fallback_chain_order_counterexample :
    mysqlValueToJson pjNone "ENUM" { asBool := some true } = Json.null
    ∧ specFallbackChain { asBool := some true } = Json.bool true
    ∧ pg_value_to_json "CITEXT" { asBytes := some [104, 105] } = Json.null
    ∧ specFallbackChain { asBytes := some [104, 105] } = Json.str "hi"
    ∧ Json.null ≠ Json.bool true ∧ Json.null ≠ Json.str "hi" := by
  exact ⟨rfl, rfl, rfl, rfl, fun h => Json.noConfusion h, fun h => Json.noConfusion h⟩

/-- C7 amended: for every type name missed by the dispatch table the
value is decoded by a first-success-wins fallback chain, but the chains
differ per backend: MySQL tries string, naive timestamp, 64-bit integer,
float, then raw bytes as UTF-8 (no boolean step); PostgreSQL tries
string, 64-bit integer, 32-bit integer, float, boolean, timezone-aware
timestamp, then naive timestamp (no raw-bytes step); JSON null results
when every step misses. -/
theorem fallback_chain_order_amended : ∀ (pj : String → Option Json) (tn : String) (v : RawValue),
    (mysqlDispatchHit (rustToUppercase tn) = false →
      mysqlValueToJson pj tn v = mysqlFallbackChain v)
    ∧ (tn ∉ pgDispatchKeys → pg_value_to_json tn v = pgFallbackChain v) := by
  intro pj tn v
  constructor
  · intro h
    simp only [mysqlDispatchHit, Bool.or_eq_false_iff, decide_eq_false_iff_not,
      mysqlDispatchKeys, List.mem_cons, List.mem_singleton, not_or] at h
    obtain ⟨⟨⟨hmem, hd⟩, hts⟩, ht⟩ := h
    obtain ⟨h1, h2, h3, h4, h5, h6, h7, h8, h9, h10, h11, h12, h13, h14, h15,
      h16, h17, h18, h19, h20, h21, h22, h23, h24⟩ := hmem
    simp only [mysqlValueToJson, h1, h2, h3, h4, h5, h6, h7, h8, h9, h10, h11,
      h12, h13, h14, h15, h16, h17, h18, h19, h20, h21, h22, h23, h24, hd, hts,
      ht, or_self, if_false, Bool.false_eq_true, or_false, false_or]
    rcases hs : v.asString with _ | s <;>
      rcases hn : v.asNaiveDateTime with _ | t <;>
        rcases hi : v.asI64 with _ | i <;>
          rcases hf : v.asF64 with _ | o <;>
            rcases hby : v.asBytes with _ | bs <;>
              simp only [mysqlFallbackChain, firstHit, hs, hn, hi, hf, hby,
                Option.map_some, Option.map_none, Option.bind_some,
                Option.bind_none, Option.getD_some, Option.getD_none,
                Option.some_bind, Option.none_bind] <;>
              first
                | rfl
                | (rcases hu8 : utf8Decode bs with _ | cs <;>
                    simp [hu8, firstHit])
  · intro h
    simp only [pgDispatchKeys, List.mem_cons, List.mem_singleton, not_or] at h
    unfold pg_value_to_json
    split
    all_goals try (simp at h)
    rcases hs : v.asString with _ | s <;>
      rcases hi : v.asI64 with _ | i <;>
        rcases hi2 : v.asI32 with _ | i2 <;>
          rcases hf : v.asF64 with _ | o <;>
            rcases hb : v.asBool with _ | b <;>
              rcases hu : v.asUtc with _ | u <;>
                rcases hn : v.asNaiveDateTime with _ | t <;>
                  simp [pgFallbackChain, firstHit, hs, hi, hi2, hf, hb, hu, hn]

/-- Witness for C7 amended: a type name unknown to either dispatch table
("ENUM" for MySQL, "CITEXT" for PostgreSQL) routes an integer-decodable
value through each backend's actual fallback chain. -/
theorem fallback_chain_order_amended_witness :
    mysqlValueToJson pjNone "ENUM" vInt = mysqlFallbackChain vInt
    ∧ pg_value_to_json "CITEXT" vInt = pgFallbackChain vInt := by
  exact ⟨(fallback_chain_order_amended pjNone "ENUM" vInt).1 (by decide),
    (fallback_chain_order_amended pjNone "CITEXT" vInt).2 (by decide)⟩

/-- C8: `extract_table_from_select` is a pure function satisfying exactly
the five specified input/output pairs. -/
theorem extract_table_examples :
    extract_table_from_select "SELECT * FROM users" = some "users"
    ∧ extract_table_from_select "SELECT * FROM `users`" = some "users"
    ∧ extract_table_from_select "SELECT * FROM public.users WHERE id=1" = some "users"
    ∧ extract_table_from_select "INSERT INTO users ..." = none
    ∧ extract_table_from_select "SELECT *" = none := by
  exact ⟨rfl, rfl, rfl, rfl, rfl⟩

/-- C9: for every MySQL binary-typed column (BLOB/BINARY/VARBINARY and
variants) a JSON decode is attempted first and passed through on
success; otherwise, bytes that are valid UTF-8 yield the decoded string
(parsed as JSON when the text parses, else the string itself), bytes that
are not valid UTF-8 yield the placeholder "[binary: N bytes]" with N the
byte count, and raw bytes are never emitted.  The path is total. -/
theorem mysql_binary_coercion_spec : ∀ (pj : String → Option Json) (v : RawValue) (tn : String),
    tn ∈ ["BLOB", "BINARY", "VARBINARY", "LONGBLOB", "MEDIUMBLOB", "TINYBLOB"] →
    (∀ j, v.asJson = some j → mysqlValueToJson pj tn v = j)
    ∧ (v.asJson = none → ∀ bs, v.asBytes = some bs →
        (∀ cs, utf8Decode bs = some cs →
          mysqlValueToJson pj tn v = (pj (String.mk cs)).getD (Json.str (String.mk cs)))
        ∧ (utf8Decode bs = none →
          mysqlValueToJson pj tn v = Json.str ("[binary: " ++ toString bs.length ++ " bytes]")))
    ∧ (v.asJson = none → v.asBytes = none → mysqlValueToJson pj tn v = Json.null) := by
  intro pj v tn htn
  have key : mysqlValueToJson pj tn v
      = (match v.asJson with
         | some j => j
         | none =>
           match v.asBytes with
           | some bs =>
             match utf8Decode bs with
             | some cs =>
               match pj (String.mk cs) with
               | some j => j
               | none => Json.str (String.mk cs)
             | none => Json.str ("[binary: " ++ toString bs.length ++ " bytes]")
           | none => Json.null) := by
    simp only [List.mem_cons, List.mem_singleton] at htn
    rcases htn with h | h | h | h | h | h | h
    all_goals first
      | (subst h; rfl)
      | exact absurd h (by simp)
  refine ⟨?_, ?_, ?_⟩
  · intro j hj; rw [key, hj]
  · intro hj bs hbs
    constructor
    · intro cs hcs; rw [key]
      simp only [hj, hbs, hcs]
      rcases hpj : pj (String.mk cs) with _ | j <;> simp [hpj]
    · intro hcs; rw [key]; simp [hj, hbs, hcs]
  · intro hj hb; rw [key]; simp [hj, hb]

/-- Witness for C9: a binary value decoding as JSON passes through, valid
UTF-8 bytes 0x68 0x69 come back as the string "hi", and the invalid
UTF-8 byte 0xFF comes back as the one-byte placeholder. -/
theorem mysql_binary_coercion_spec_witness :
    mysqlValueToJson pjNone "BLOB" vJsonBlob = Json.num 5
    ∧ mysqlValueToJson pjNone "VARBINARY" vUtfBlob = Json.str "hi"
    ∧ mysqlValueToJson pjNone "BLOB" vBinBlob = Json.str "[binary: 1 bytes]" := by
  refine ⟨?_, ?_, ?_⟩
  · exact (mysql_binary_coercion_spec pjNone vJsonBlob "BLOB" (by decide)).1 (Json.num 5) rfl
  · exact ((mysql_binary_coercion_spec pjNone vUtfBlob "VARBINARY" (by decide)).2.1
      rfl [104, 105] rfl).1 ['h', 'i'] rfl
  · exact ((mysql_binary_coercion_spec pjNone vBinBlob "BLOB" (by decide)).2.1
      rfl [255] rfl).2 rfl

/-- C10: on either backend, a statement that succeeds via the first,
row-returning attempt of `execute` or `execute_with_context` always has
`affected_rows = 0`, whatever rows it returned; a nonzero
`affected_rows` in a successful result can only come from the second,
affected-row-count attempt (so the first attempt necessarily failed). -/
theorem row_path_affected_rows_zero : ∀ (pj : String → Option Json) (be : MySqlPool)
    (pool : PgPool) (q : String) (orig exec : Option String) (ctx schema : Option String),
    (∀ rows, be.fetchAll q = .ok rows →
      ∃ r, mysqlExecute pj be q = .ok r ∧ r.affected_rows = 0)
    ∧ (∀ r, mysqlExecute pj be q = .ok r → r.affected_rows ≠ 0 →
        (∃ e, be.fetchAll q = .error e) ∧ be.runExec q = .ok r.affected_rows)
    ∧ (∀ rows, pool.fetchAll q = .ok rows →
        ∃ r, pgRunStatement pool q orig exec = .ok r ∧ r.affected_rows = 0)
    ∧ (∀ r, pgRunStatement pool q orig exec = .ok r → r.affected_rows ≠ 0 →
        (∃ e, pool.fetchAll q = .error e) ∧ pool.runExec q = .ok r.affected_rows)
    ∧ (∀ rows, be.fetchAll q = .ok rows →
        (ctx = none ∨ ∃ db, ctx = some db ∧ (be.runExec (mysqlUseStmt db)).isOk) →
        ∃ r, mysqlExecuteWithContext pj be q ctx = .ok r ∧ r.affected_rows = 0)
    ∧ (∀ rows, pool.fetchAll q = .ok rows →
        (schema = none ∨ ∃ s, schema = some s ∧ (pool.runExec (pgSetPath s)).isOk) →
        ∃ r, pgExecuteWithContext pool q schema = .ok r ∧ r.affected_rows = 0) := by
  intro pj be pool q orig exec ctx schema
  refine ⟨?_, ?_, ?_, ?_, ?_, ?_⟩
  · intro rows hrows
    exact ⟨_, by rw [mysqlExecute, hrows], rfl⟩
  · intro r hr hnz
    rcases hfa : be.fetchAll q with e | rows
    · rw [mysqlExecute, hfa] at hr
      rcases hre : be.runExec q with e2 | n
      · rw [hre] at hr; exact absurd hr (by simp)
      · rw [hre] at hr
        simp only [Except.ok.injEq] at hr
        refine ⟨⟨e, rfl⟩, ?_⟩
        rw [← hr]
    · rw [mysqlExecute, hfa] at hr
      simp only [Except.ok.injEq] at hr
      rw [← hr] at hnz
      exact absurd rfl hnz
  · intro rows hrows
    exact ⟨_, by rw [pgRunStatement, hrows], rfl⟩
  · intro r hr hnz
    rcases hfa : pool.fetchAll q with e | rows
    · rw [pgRunStatement, hfa] at hr
      rcases hre : pool.runExec q with e2 | n
      · rw [hre] at hr; exact absurd hr (by simp)
      · rw [hre] at hr
        simp only [Except.ok.injEq] at hr
        refine ⟨⟨e, rfl⟩, ?_⟩
        rw [← hr]
    · rw [pgRunStatement, hfa] at hr
      simp only [Except.ok.injEq] at hr
      rw [← hr] at hnz
      exact absurd rfl hnz
  · intro rows hrows hctx
    rcases hctx with hc | ⟨db, hc, hok⟩
    · subst hc
      exact ⟨_, by rw [mysqlExecuteWithContext, mysqlExecute, hrows]; rfl, rfl⟩
    · subst hc
      rcases hre : be.runExec (mysqlUseStmt db) with e | k
      · rw [hre] at hok; exact absurd hok (by simp [Except.isOk, Except.toBool])
      · exact ⟨_, by rw [mysqlExecuteWithContext, hre, mysqlExecute, hrows]; rfl, rfl⟩
  · intro rows hrows hctx
    rcases hctx with hc | ⟨s, hc, hok⟩
    · subst hc
      exact ⟨_, by rw [pgExecuteWithContext, pgRunStatement, hrows], rfl⟩
    · subst hc
      rcases hre : pool.runExec (pgSetPath s) with e | k
      · rw [hre] at hok; exact absurd hok (by simp [Except.isOk, Except.toBool])
      · have hh : pgExecuteWithContext pool q (some s)
            = pgRunStatement pool q (some q) (some (pgSetPath s ++ ";\n" ++ q)) := by
          rw [pgExecuteWithContext]
          simp only [hre]
        rw [hh, pgRunStatement, hrows]
        exact ⟨_, rfl, rfl⟩

/-- Witness for C10: on pools whose row-returning attempt succeeds with
zero rows, `execute` and both `execute_with_context` variants return
`affected_rows = 0`. -/
theorem row_path_affected_rows_zero_witness :
    (∃ r, mysqlExecute pjNone beOkEmpty "SELECT 1" = .ok r ∧ r.affected_rows = 0)
    ∧ (∃ r, pgRunStatement poolOkEmpty "SELECT 1" none none = .ok r ∧ r.affected_rows = 0)
    ∧ (∃ r, mysqlExecuteWithContext pjNone beOkEmpty "SELECT 1" (some "db") = .ok r
        ∧ r.affected_rows = 0)
    ∧ (∃ r, pgExecuteWithContext poolOkEmpty "SELECT 1" (some "s") = .ok r
        ∧ r.affected_rows = 0) := by
  refine ⟨?_, ?_, ?_, ?_⟩
  · exact (row_path_affected_rows_zero pjNone beOkEmpty poolOkEmpty "SELECT 1"
      none none none none).1 [] rfl
  · exact (row_path_affected_rows_zero pjNone beOkEmpty poolOkEmpty "SELECT 1"
      none none none none).2.2.1 [] rfl
  · exact (row_path_affected_rows_zero pjNone beOkEmpty poolOkEmpty "SELECT 1"
      none none (some "db") none).2.2.2.2.1 [] rfl (Or.inr ⟨"db", rfl, rfl⟩)
  · exact (row_path_affected_rows_zero pjNone beOkEmpty poolOkEmpty "SELECT 1"
      none none none (some "s")).2.2.2.2.2 [] rfl (Or.inr ⟨"s", rfl, rfl⟩)
